import Mathlib

/-!
# Verification of the token-factory CosmWasm binding layer

This file embeds `src/lib.rs` of the token-factory binding crate.
The crate declares the `TokenFactoryMsg` / `TokenFactoryQuery` schema under
`#[cw_serde]` (which expands to serde derive with
`#[serde(deny_unknown_fields, rename_all = "snake_case")]`), the typed
response structs, the `CreateTokenFactoryMsg` constructor helpers and the
`TokenFactoryQuerier` query helpers.

Serialization is modelled at the `serde_json::Value` level: `Json` below is
the value tree, encoders mirror the derived `Serialize` impls (externally
tagged enums, snake_case tags, struct fields in declaration order,
`Option` as `null`/value, `cosmwasm_std::Uint256` as a decimal string,
`cosmwasm_std::Addr` as a plain string) and decoders mirror the derived
`Deserialize` impls (missing `Option` fields default to `None`, missing
required fields fail, unknown fields fail because of `deny_unknown_fields`,
`Uint256` parses a decimal string and rejects values not below `2^256`).
-/

namespace TokenFactory

/-- The JSON value tree, standing for `serde_json::Value` restricted to the
shapes this schema produces (numbers here are the unsigned integers used by
`u32` fields). -/
inductive Json where
  | null : Json
  | num (n : Nat) : Json
  | str (s : String) : Json
  | arr (elems : List Json) : Json
  | obj (fields : List (String × Json)) : Json
deriving Repr

/-- Decode errors are opaque strings, standing for `serde_json::Error`
respectively `cosmwasm_std::StdError` texts. -/
abbrev DecodeResult (α : Type) := Except String α

/-! ## Decimal strings for `Uint256`

`cosmwasm_std::Uint256` serializes through `Display` (base-10 digits) and
deserializes through `FromStr`, which walks the decimal digits and rejects
anything else, the empty string, and values that do not fit in 256 bits. -/

/-- The character for one decimal digit. -/
def digitChar (d : Nat) : Char := Char.ofNat (48 + d)

/-- Base-10 printing, most significant digit first, prepended to `rest`. -/
def natToCharsAux (n : Nat) (rest : List Char) : List Char :=
  if h : n < 10 then digitChar n :: rest
  else natToCharsAux (n / 10) (digitChar (n % 10) :: rest)
  termination_by n
  decreasing_by exact Nat.div_lt_self (by omega) (by omega)

/-- Base-10 printing of a natural number (the `Display` of `Uint256`). -/
def natToChars (n : Nat) : List Char := natToCharsAux n []

/-- Number of base-10 digits printed for `n`. -/
def digitLen (n : Nat) : Nat :=
  if h : n < 10 then 1
  else digitLen (n / 10) + 1
  termination_by n
  decreasing_by exact Nat.div_lt_self (by omega) (by omega)

/-- The numeric value of a decimal digit character, `none` for any other
character. -/
def digit? (c : Char) : Option Nat :=
  if 48 ≤ c.toNat ∧ c.toNat ≤ 57 then some (c.toNat - 48) else none

/-- Fold of decimal digits onto an accumulator; fails at the first
non-digit character (mirrors `Uint256::from_str`). -/
def parseDecAux : List Char → Nat → Option Nat
  | [], acc => some acc
  | c :: cs, acc =>
    match digit? c with
    | some d => parseDecAux cs (10 * acc + d)
    | none => none

/-- Decimal parsing; the empty string is rejected, as in
`Uint256::from_str`. -/
def parseDec (cs : List Char) : Option Nat :=
  match cs with
  | [] => none
  | _ => parseDecAux cs 0

theorem digit?_digitChar (d : Nat) (hd : d < 10) : digit? (digitChar d) = some d := by
  interval_cases d <;> decide

theorem parseDecAux_natToCharsAux (n : Nat) :
    ∀ acc rest, parseDecAux (natToCharsAux n rest) acc =
      parseDecAux rest (acc * 10 ^ digitLen n + n) := by
  induction n using Nat.strong_induction_on with
  | _ n ih =>
    intro acc rest
    rw [natToCharsAux, digitLen]
    by_cases h : n < 10
    · simp only [dif_pos h, parseDecAux, digit?_digitChar n h]
      ring_nf
    · simp only [dif_neg h]
      rw [ih (n / 10) (Nat.div_lt_self (by omega) (by omega))]
      simp only [parseDecAux, digit?_digitChar (n % 10) (Nat.mod_lt n (by omega))]
      have hpow : acc * 10 ^ (digitLen (n / 10) + 1) =
          (acc * 10 ^ digitLen (n / 10)) * 10 := by ring
      rw [hpow]
      congr 1
      generalize acc * 10 ^ digitLen (n / 10) = X
      omega

theorem natToCharsAux_ne_nil (n : Nat) : ∀ rest, natToCharsAux n rest ≠ [] := by
  induction n using Nat.strong_induction_on with
  | _ n ih =>
    intro rest
    rw [natToCharsAux]
    by_cases h : n < 10
    · simp [h]
    · simp only [dif_neg h]
      exact ih (n / 10) (Nat.div_lt_self (by omega) (by omega)) _

/-- Round trip: parsing the base-10 printing of `n` recovers `n`. -/
theorem parseDec_natToChars (n : Nat) : parseDec (natToChars n) = some n := by
  unfold parseDec natToChars
  have hne := natToCharsAux_ne_nil n []
  match hrepr : natToCharsAux n [] with
  | [] => exact absurd hrepr hne
  | c :: cs =>
    rw [← hrepr]
    have := parseDecAux_natToCharsAux n 0 []
    simp only [parseDecAux] at this
    simpa using this

/-! ## Data model (`src/lib.rs`) -/

/-- `cosmwasm_std::Uint256`: a 256-bit unsigned integer. The type cannot
represent a negative value. -/
abbrev Uint256 := {n : Nat // n < 2 ^ 256}

/-- Rust `u32`, the type of `DenomUnit::exponent`. -/
abbrev U32 := {n : Nat // n < 2 ^ 32}

/-- `cosmwasm_std::Addr`: a validated address, a newtype over `String`
(serialized as the plain inner string). -/
structure Addr where
  val : String
deriving DecidableEq, Repr

/-- `DenomUnit` describes a token for the Bank module. -/
structure DenomUnit where
  denom : String
  exponent : U32
  aliases : List String
deriving DecidableEq, Repr

/-- `DenomMetadata` describes a token for the Bank module. -/
structure DenomMetadata where
  description : String
  denom_units : List DenomUnit
  base : String
  display : String
  name : String
  symbol : String
deriving DecidableEq, Repr

/-- The custom messages that call into the TokenFactory bindings
(enum `TokenFactoryMsg`). -/
inductive TokenFactoryMsg where
  | CreateDenom (subdenom : String) (metadata : Option DenomMetadata)
  | ChangeAdmin (denom : String) (new_admin_address : Addr)
  | MintTokens (denom : String) (amount : Uint256) (mint_to_address : Addr)
  | BurnTokens (denom : String) (amount : Uint256) (burn_from_address : Addr)
  | SetMetadata (metadata : DenomMetadata)
  | ForceTransfer (denom : String) (from_address : Addr) (to_address : Addr)
      (amount : Uint256)
deriving DecidableEq, Repr

/-- TokenFactory-specific queries (enum `TokenFactoryQuery`). -/
inductive TokenFactoryQuery where
  | FullDenom (subdenom : String) (creator_addr : Addr)
  | Admin (denom : String)
  | Metadata (denom : String)
  | DenomsByCreator (creator : Addr)
  | Params
deriving DecidableEq, Repr

/-- Response to `TokenFactoryQuery::FullDenom`. -/
structure FullDenomResponse where
  denom : String
deriving DecidableEq, Repr

/-- Response to `TokenFactoryQuery::Admin`. -/
structure AdminResponse where
  admin : String
deriving DecidableEq, Repr

/-- Response to `TokenFactoryQuery::Metadata`. -/
structure MetadataResponse where
  metadata : Option DenomMetadata
deriving DecidableEq, Repr

/-- Response to `TokenFactoryQuery::DenomsByCreator`. -/
structure DenomsByCreatorResponse where
  denoms : List String
deriving DecidableEq, Repr

/-- One entry of the denom-creation fee schedule. -/
structure DenomCreationFee where
  amount : Uint256
  denom : String
deriving DecidableEq, Repr

/-- The token-factory module parameters. -/
structure TokenParams where
  denom_creation_fee : List DenomCreationFee
deriving DecidableEq, Repr

/-- Response to `TokenFactoryQuery::Params`. -/
structure TokenParamsResponse where
  params : TokenParams
deriving DecidableEq, Repr

/-! ## Encoders (the derived `Serialize` impls) -/

/-- `Uint256` serializes as its base-10 decimal string. -/
def encUint256 (u : Uint256) : Json := .str ⟨natToChars u.val⟩

/-- `Addr` serializes as the plain inner string. -/
def encAddr (a : Addr) : Json := .str a.val

/-- `u32` serializes as a JSON number. -/
def encU32 (n : U32) : Json := .num n.val

/-- `Option<T>` serializes `None` as `null` and `Some x` as the encoding
of `x` (cw_serde does not skip `None` fields). -/
def encOpt (f : α → Json) : Option α → Json
  | none => .null
  | some a => f a

/-- `Vec<String>` serializes as an array of strings. -/
def encStrList (xs : List String) : Json := .arr (xs.map .str)

/-- `DenomUnit` serializes as an object, fields in declaration order. -/
def encDenomUnit (u : DenomUnit) : Json :=
  .obj [("denom", .str u.denom), ("exponent", encU32 u.exponent),
        ("aliases", encStrList u.aliases)]

/-- `DenomMetadata` serializes as an object, fields in declaration order. -/
def encDenomMetadata (m : DenomMetadata) : Json :=
  .obj [("description", .str m.description),
        ("denom_units", .arr (m.denom_units.map encDenomUnit)),
        ("base", .str m.base),
        ("display", .str m.display),
        ("name", .str m.name),
        ("symbol", .str m.symbol)]

/-- `TokenFactoryMsg` serializes externally tagged with snake_case variant
names, each variant's fields as a named sub-object. -/
def encMsg : TokenFactoryMsg → Json
  | .CreateDenom subdenom metadata =>
    .obj [("create_denom", .obj [("subdenom", .str subdenom),
                                 ("metadata", encOpt encDenomMetadata metadata)])]
  | .ChangeAdmin denom new_admin_address =>
    .obj [("change_admin", .obj [("denom", .str denom),
                                 ("new_admin_address", encAddr new_admin_address)])]
  | .MintTokens denom amount mint_to_address =>
    .obj [("mint_tokens", .obj [("denom", .str denom),
                                ("amount", encUint256 amount),
                                ("mint_to_address", encAddr mint_to_address)])]
  | .BurnTokens denom amount burn_from_address =>
    .obj [("burn_tokens", .obj [("denom", .str denom),
                                ("amount", encUint256 amount),
                                ("burn_from_address", encAddr burn_from_address)])]
  | .SetMetadata metadata =>
    .obj [("set_metadata", .obj [("metadata", encDenomMetadata metadata)])]
  | .ForceTransfer denom from_address to_address amount =>
    .obj [("force_transfer", .obj [("denom", .str denom),
                                   ("from_address", encAddr from_address),
                                   ("to_address", encAddr to_address),
                                   ("amount", encUint256 amount)])]

/-- `TokenFactoryQuery` serializes externally tagged with snake_case
variant names. -/
def encQuery : TokenFactoryQuery → Json
  | .FullDenom subdenom creator_addr =>
    .obj [("full_denom", .obj [("subdenom", .str subdenom),
                               ("creator_addr", encAddr creator_addr)])]
  | .Admin denom => .obj [("admin", .obj [("denom", .str denom)])]
  | .Metadata denom => .obj [("metadata", .obj [("denom", .str denom)])]
  | .DenomsByCreator creator =>
    .obj [("denoms_by_creator", .obj [("creator", encAddr creator)])]
  | .Params => .obj [("params", .obj [])]

/-- `FullDenomResponse` serialization. -/
def encFullDenomResponse (r : FullDenomResponse) : Json :=
  .obj [("denom", .str r.denom)]

/-- `AdminResponse` serialization. -/
def encAdminResponse (r : AdminResponse) : Json :=
  .obj [("admin", .str r.admin)]

/-- `MetadataResponse` serialization. -/
def encMetadataResponse (r : MetadataResponse) : Json :=
  .obj [("metadata", encOpt encDenomMetadata r.metadata)]

/-- `DenomsByCreatorResponse` serialization. -/
def encDenomsByCreatorResponse (r : DenomsByCreatorResponse) : Json :=
  .obj [("denoms", encStrList r.denoms)]

/-- `DenomCreationFee` serialization. -/
def encDenomCreationFee (f : DenomCreationFee) : Json :=
  .obj [("amount", encUint256 f.amount), ("denom", .str f.denom)]

/-- `TokenParams` serialization. -/
def encTokenParams (p : TokenParams) : Json :=
  .obj [("denom_creation_fee", .arr (p.denom_creation_fee.map encDenomCreationFee))]

/-- `TokenParamsResponse` serialization. -/
def encTokenParamsResponse (r : TokenParamsResponse) : Json :=
  .obj [("params", encTokenParams r.params)]

/-! ## Decoders (the derived `Deserialize` impls)

`#[cw_serde]` adds `#[serde(deny_unknown_fields)]`, so a field key outside
the struct's declared keys is a decode error; a missing required field is a
decode error; a missing `Option` field decodes to `None` (serde's default
handling of `Option` fields). -/

/-- First value stored under `key`, as serde's field lookup on a JSON
object. -/
def findField : List (String × Json) → String → Option Json
  | [], _ => none
  | (k, v) :: rest, key => if k = key then some v else findField rest key

/-- `deny_unknown_fields`: every key of the object must be a declared
field name. -/
def keysAllowed (fields : List (String × Json)) (allowed : List String) : Bool :=
  fields.all (fun kv => allowed.contains kv.1)

/-- Decode a JSON string. -/
def decStr : Json → DecodeResult String
  | .str s => .ok s
  | _ => .error "invalid type: expected a string"

/-- Decode an `Addr` (no validation is performed by `Deserialize`). -/
def decAddr (j : Json) : DecodeResult Addr :=
  match decStr j with
  | .ok s => .ok ⟨s⟩
  | .error e => .error e

/-- Decode a `u32` from a JSON number. -/
def decU32 : Json → DecodeResult U32
  | .num n => if h : n < 2 ^ 32 then .ok ⟨n, h⟩ else .error "number too large for u32"
  | _ => .error "invalid type: expected an integer"

/-- Decode a `Uint256`: a decimal string whose value fits in 256 bits
(`Uint256::from_str`). -/
def decUint256 : Json → DecodeResult Uint256
  | .str s =>
    match parseDec s.data with
    | some n =>
      if h : n < 2 ^ 256 then .ok ⟨n, h⟩ else .error "value too big for Uint256"
    | none => .error "error parsing Uint256 from string"
  | _ => .error "invalid type: expected a string-encoded Uint256"

/-- Decode a required field: absent is a hard failure. -/
def decField (dec : Json → DecodeResult α) : Option Json → DecodeResult α
  | some j => dec j
  | none => .error "missing field"

/-- Whether a JSON value is `null`. -/
def Json.isNull : Json → Bool
  | .null => true
  | _ => false

/-- Decode an `Option` field: absent and `null` both give `None`. -/
def decOptField (dec : Json → DecodeResult α) : Option Json → DecodeResult (Option α)
  | none => .ok none
  | some j =>
    if j.isNull then .ok none
    else
      match dec j with
      | .ok a => .ok (some a)
      | .error e => .error e

/-- Decode every element of a JSON array, failing at the first bad
element. -/
def mapDec (dec : Json → DecodeResult α) : List Json → DecodeResult (List α)
  | [] => .ok []
  | j :: js =>
    match dec j with
    | .ok a =>
      match mapDec dec js with
      | .ok as => .ok (a :: as)
      | .error e => .error e
    | .error e => .error e

/-- Decode a `Vec<T>` from a JSON array. -/
def decList (dec : Json → DecodeResult α) : Json → DecodeResult (List α)
  | .arr xs => mapDec dec xs
  | _ => .error "invalid type: expected a sequence"

/-- Decode a `DenomUnit` object. -/
def decDenomUnit : Json → DecodeResult DenomUnit
  | .obj fields =>
    if keysAllowed fields ["denom", "exponent", "aliases"] then
      match decField decStr (findField fields "denom"),
            decField decU32 (findField fields "exponent"),
            decField (decList decStr) (findField fields "aliases") with
      | .ok d, .ok e, .ok a => .ok ⟨d, e, a⟩
      | .error e, _, _ => .error e
      | _, .error e, _ => .error e
      | _, _, .error e => .error e
    else .error "unknown field"
  | _ => .error "invalid type: expected an object"

/-- Decode a `DenomMetadata` object. -/
def decDenomMetadata : Json → DecodeResult DenomMetadata
  | .obj fields =>
    if keysAllowed fields
        ["description", "denom_units", "base", "display", "name", "symbol"] then
      match decField decStr (findField fields "description"),
            decField (decList decDenomUnit) (findField fields "denom_units"),
            decField decStr (findField fields "base"),
            decField decStr (findField fields "display"),
            decField decStr (findField fields "name"),
            decField decStr (findField fields "symbol") with
      | .ok de, .ok du, .ok b, .ok di, .ok na, .ok sy => .ok ⟨de, du, b, di, na, sy⟩
      | .error e, _, _, _, _, _ => .error e
      | _, .error e, _, _, _, _ => .error e
      | _, _, .error e, _, _, _ => .error e
      | _, _, _, .error e, _, _ => .error e
      | _, _, _, _, .error e, _ => .error e
      | _, _, _, _, _, .error e => .error e
    else .error "unknown field"
  | _ => .error "invalid type: expected an object"

/-- Decode the field object of one `TokenFactoryMsg` variant, given its
snake_case tag. -/
def decMsgFields : String → List (String × Json) → DecodeResult TokenFactoryMsg
  | "create_denom", fields =>
    if keysAllowed fields ["subdenom", "metadata"] then
      match decField decStr (findField fields "subdenom"),
            decOptField decDenomMetadata (findField fields "metadata") with
      | .ok s, .ok m => .ok (.CreateDenom s m)
      | .error e, _ => .error e
      | _, .error e => .error e
    else .error "unknown field"
  | "change_admin", fields =>
    if keysAllowed fields ["denom", "new_admin_address"] then
      match decField decStr (findField fields "denom"),
            decField decAddr (findField fields "new_admin_address") with
      | .ok d, .ok a => .ok (.ChangeAdmin d a)
      | .error e, _ => .error e
      | _, .error e => .error e
    else .error "unknown field"
  | "mint_tokens", fields =>
    if keysAllowed fields ["denom", "amount", "mint_to_address"] then
      match decField decStr (findField fields "denom"),
            decField decUint256 (findField fields "amount"),
            decField decAddr (findField fields "mint_to_address") with
      | .ok d, .ok am, .ok a => .ok (.MintTokens d am a)
      | .error e, _, _ => .error e
      | _, .error e, _ => .error e
      | _, _, .error e => .error e
    else .error "unknown field"
  | "burn_tokens", fields =>
    if keysAllowed fields ["denom", "amount", "burn_from_address"] then
      match decField decStr (findField fields "denom"),
            decField decUint256 (findField fields "amount"),
            decField decAddr (findField fields "burn_from_address") with
      | .ok d, .ok am, .ok a => .ok (.BurnTokens d am a)
      | .error e, _, _ => .error e
      | _, .error e, _ => .error e
      | _, _, .error e => .error e
    else .error "unknown field"
  | "set_metadata", fields =>
    if keysAllowed fields ["metadata"] then
      match decField decDenomMetadata (findField fields "metadata") with
      | .ok m => .ok (.SetMetadata m)
      | .error e => .error e
    else .error "unknown field"
  | "force_transfer", fields =>
    if keysAllowed fields ["denom", "from_address", "to_address", "amount"] then
      match decField decStr (findField fields "denom"),
            decField decAddr (findField fields "from_address"),
            decField decAddr (findField fields "to_address"),
            decField decUint256 (findField fields "amount") with
      | .ok d, .ok fa, .ok ta, .ok am => .ok (.ForceTransfer d fa ta am)
      | .error e, _, _, _ => .error e
      | _, .error e, _, _ => .error e
      | _, _, .error e, _ => .error e
      | _, _, _, .error e => .error e
    else .error "unknown field"
  | _, _ => .error "unknown variant"

/-- Decode a `TokenFactoryMsg`: an externally tagged enum is an object
with exactly one entry, whose key is the variant tag. -/
def decMsg : Json → DecodeResult TokenFactoryMsg
  | .obj [(tag, .obj fields)] => decMsgFields tag fields
  | .obj [(_, _)] => .error "invalid type: variant content must be an object"
  | _ => .error "expected an object with a single variant key"

/-- Decode the field object of one `TokenFactoryQuery` variant, given its
snake_case tag. -/
def decQueryFields : String → List (String × Json) → DecodeResult TokenFactoryQuery
  | "full_denom", fields =>
    if keysAllowed fields ["subdenom", "creator_addr"] then
      match decField decStr (findField fields "subdenom"),
            decField decAddr (findField fields "creator_addr") with
      | .ok s, .ok a => .ok (.FullDenom s a)
      | .error e, _ => .error e
      | _, .error e => .error e
    else .error "unknown field"
  | "admin", fields =>
    if keysAllowed fields ["denom"] then
      match decField decStr (findField fields "denom") with
      | .ok d => .ok (.Admin d)
      | .error e => .error e
    else .error "unknown field"
  | "metadata", fields =>
    if keysAllowed fields ["denom"] then
      match decField decStr (findField fields "denom") with
      | .ok d => .ok (.Metadata d)
      | .error e => .error e
    else .error "unknown field"
  | "denoms_by_creator", fields =>
    if keysAllowed fields ["creator"] then
      match decField decAddr (findField fields "creator") with
      | .ok a => .ok (.DenomsByCreator a)
      | .error e => .error e
    else .error "unknown field"
  | "params", fields =>
    if keysAllowed fields [] then .ok .Params
    else .error "unknown field"
  | _, _ => .error "unknown variant"

/-- Decode a `TokenFactoryQuery` (externally tagged enum). -/
def decQuery : Json → DecodeResult TokenFactoryQuery
  | .obj [(tag, .obj fields)] => decQueryFields tag fields
  | .obj [(_, _)] => .error "invalid type: variant content must be an object"
  | _ => .error "expected an object with a single variant key"

/-- Decode a `FullDenomResponse`. -/
def decFullDenomResponse : Json → DecodeResult FullDenomResponse
  | .obj fields =>
    if keysAllowed fields ["denom"] then
      match decField decStr (findField fields "denom") with
      | .ok d => .ok ⟨d⟩
      | .error e => .error e
    else .error "unknown field"
  | _ => .error "invalid type: expected an object"

/-- Decode an `AdminResponse`; `admin` is a required string field. -/
def decAdminResponse : Json → DecodeResult AdminResponse
  | .obj fields =>
    if keysAllowed fields ["admin"] then
      match decField decStr (findField fields "admin") with
      | .ok a => .ok ⟨a⟩
      | .error e => .error e
    else .error "unknown field"
  | _ => .error "invalid type: expected an object"

/-- Decode a `MetadataResponse`; `metadata` is an `Option` field. -/
def decMetadataResponse : Json → DecodeResult MetadataResponse
  | .obj fields =>
    if keysAllowed fields ["metadata"] then
      match decOptField decDenomMetadata (findField fields "metadata") with
      | .ok m => .ok ⟨m⟩
      | .error e => .error e
    else .error "unknown field"
  | _ => .error "invalid type: expected an object"

/-- Decode a `DenomsByCreatorResponse`. -/
def decDenomsByCreatorResponse : Json → DecodeResult DenomsByCreatorResponse
  | .obj fields =>
    if keysAllowed fields ["denoms"] then
      match decField (decList decStr) (findField fields "denoms") with
      | .ok ds => .ok ⟨ds⟩
      | .error e => .error e
    else .error "unknown field"
  | _ => .error "invalid type: expected an object"

/-- Decode a `DenomCreationFee`. -/
def decDenomCreationFee : Json → DecodeResult DenomCreationFee
  | .obj fields =>
    if keysAllowed fields ["amount", "denom"] then
      match decField decUint256 (findField fields "amount"),
            decField decStr (findField fields "denom") with
      | .ok am, .ok d => .ok ⟨am, d⟩
      | .error e, _ => .error e
      | _, .error e => .error e
    else .error "unknown field"
  | _ => .error "invalid type: expected an object"

/-- Decode a `TokenParams`. -/
def decTokenParams : Json → DecodeResult TokenParams
  | .obj fields =>
    if keysAllowed fields ["denom_creation_fee"] then
      match decField (decList decDenomCreationFee)
              (findField fields "denom_creation_fee") with
      | .ok fs => .ok ⟨fs⟩
      | .error e => .error e
    else .error "unknown field"
  | _ => .error "invalid type: expected an object"

/-- Decode a `TokenParamsResponse`. -/
def decTokenParamsResponse : Json → DecodeResult TokenParamsResponse
  | .obj fields =>
    if keysAllowed fields ["params"] then
      match decField decTokenParams (findField fields "params") with
      | .ok p => .ok ⟨p⟩
      | .error e => .error e
    else .error "unknown field"
  | _ => .error "invalid type: expected an object"

/-! ## Constructor helpers (`trait CreateTokenFactoryMsg`)

The trait is implemented for every `T: From<TokenFactoryMsg>`; the
conversion is the abstract `into` argument below. `StdResult` is
`Result<_, StdError>`. -/

/-- `cosmwasm_std::StdError`, modelled by its message text. -/
abbrev StdError := String

/-- `cosmwasm_std::StdResult`. -/
abbrev StdResult (α : Type) := Except StdError α

/-- `CreateTokenFactoryMsg::token_factory_create_denom`. -/
def token_factory_create_denom (into : TokenFactoryMsg → α) (subdenom : String)
    (metadata : Option DenomMetadata) : StdResult α :=
  .ok (into (.CreateDenom subdenom metadata))

/-- `CreateTokenFactoryMsg::token_factory_change_admin`. -/
def token_factory_change_admin (into : TokenFactoryMsg → α) (denom : String)
    (new_admin_address : Addr) : StdResult α :=
  .ok (into (.ChangeAdmin denom new_admin_address))

/-- `CreateTokenFactoryMsg::token_factory_mint_tokens`. -/
def token_factory_mint_tokens (into : TokenFactoryMsg → α) (denom : String)
    (amount : Uint256) (mint_to_address : Addr) : StdResult α :=
  .ok (into (.MintTokens denom amount mint_to_address))

/-- `CreateTokenFactoryMsg::token_factory_burn_tokens`. -/
def token_factory_burn_tokens (into : TokenFactoryMsg → α) (denom : String)
    (amount : Uint256) (burn_from_address : Addr) : StdResult α :=
  .ok (into (.BurnTokens denom amount burn_from_address))

/-- `CreateTokenFactoryMsg::token_factory_set_metadata`. -/
def token_factory_set_metadata (into : TokenFactoryMsg → α)
    (metadata : DenomMetadata) : StdResult α :=
  .ok (into (.SetMetadata metadata))

/-- `CreateTokenFactoryMsg::token_factory_force_transfer`. -/
def token_factory_force_transfer (into : TokenFactoryMsg → α) (denom : String)
    (from_address : Addr) (to_address : Addr) (amount : Uint256) : StdResult α :=
  .ok (into (.ForceTransfer denom from_address to_address amount))

/-! ## Query helpers (`impl TokenFactoryQuerier for QuerierWrapper`)

The impl is generic over `T: CustomQuery + From<TokenFactoryQuery>`; the
conversion is the abstract `intoT` argument. The host transport behind
`QuerierWrapper::query` is the abstract `rawQuery` field; `query` performs
one raw exchange and decodes the raw response value. To make the claims
about issued requests statable, `query` also returns the list of requests
of the exchange it performed. -/

/-- `cosmwasm_std::QuerierWrapper`, abstracted to its raw transport: a raw
query either fails with one opaque error or returns a raw response
value. -/
structure QuerierWrapper (T : Type) where
  rawQuery : T → Except StdError Json

/-- `QuerierWrapper::query`: one transport exchange, then typed decoding
of the raw response; a transport error or a decode error is returned as a
single opaque `StdError`. The second component lists the raw requests
issued. -/
def QuerierWrapper.query (qw : QuerierWrapper T) (dec : Json → DecodeResult α)
    (request : T) : StdResult α × List T :=
  (match qw.rawQuery request with
   | .ok v => dec v
   | .error e => .error e,
   [request])

/-- `TokenFactoryQuerier::query_token_factory_full_denom`. -/
def query_token_factory_full_denom (intoT : TokenFactoryQuery → T)
    (qw : QuerierWrapper T) (subdenom : String) (creator_addr : Addr) :
    StdResult FullDenomResponse × List T :=
  let custom_query : T := intoT (.FullDenom subdenom creator_addr)
  qw.query decFullDenomResponse custom_query

/-- `TokenFactoryQuerier::query_token_factory_admin`. -/
def query_token_factory_admin (intoT : TokenFactoryQuery → T)
    (qw : QuerierWrapper T) (denom : String) : StdResult AdminResponse × List T :=
  let custom_query : T := intoT (.Admin denom)
  qw.query decAdminResponse custom_query

/-- `TokenFactoryQuerier::query_token_factory_metadata`. -/
def query_token_factory_metadata (intoT : TokenFactoryQuery → T)
    (qw : QuerierWrapper T) (denom : String) : StdResult MetadataResponse × List T :=
  let custom_query : T := intoT (.Metadata denom)
  qw.query decMetadataResponse custom_query

/-- `TokenFactoryQuerier::query_token_factory_denoms_by_creator`. -/
def query_token_factory_denoms_by_creator (intoT : TokenFactoryQuery → T)
    (qw : QuerierWrapper T) (creator : Addr) :
    StdResult DenomsByCreatorResponse × List T :=
  let custom_query : T := intoT (.DenomsByCreator creator)
  qw.query decDenomsByCreatorResponse custom_query

/-- `TokenFactoryQuerier::query_token_factory_params`. -/
def query_token_factory_params (intoT : TokenFactoryQuery → T)
    (qw : QuerierWrapper T) : StdResult TokenParamsResponse × List T :=
  let custom_query : T := intoT .Params
  qw.query decTokenParamsResponse custom_query

/-! ## Component round-trip lemmas -/

theorem decStr_str (s : String) : decStr (.str s) = .ok s := rfl

theorem decAddr_encAddr (a : Addr) : decAddr (encAddr a) = .ok a := rfl

theorem decU32_encU32 (n : U32) : decU32 (encU32 n) = .ok n := by
  obtain ⟨v, hv⟩ := n
  simp only [decU32, encU32]
  exact dif_pos hv

theorem decUint256_encUint256 (u : Uint256) : decUint256 (encUint256 u) = .ok u := by
  obtain ⟨v, hv⟩ := u
  simp only [decUint256, encUint256]
  rw [parseDec_natToChars]
  exact dif_pos hv

theorem mapDec_map (dec : Json → DecodeResult α) (enc : α → Json)
    (h : ∀ x, dec (enc x) = .ok x) (xs : List α) :
    mapDec dec (xs.map enc) = .ok xs := by
  induction xs with
  | nil => rfl
  | cons x xs ih => simp [mapDec, h x, ih]

theorem decStrList_encStrList (xs : List String) :
    decList decStr (encStrList xs) = .ok xs := by
  simp only [encStrList, decList]
  exact mapDec_map decStr Json.str (fun s => rfl) xs

theorem decDenomUnit_enc (u : DenomUnit) : decDenomUnit (encDenomUnit u) = .ok u := by
  simp [decDenomUnit, encDenomUnit, keysAllowed, findField, decField, decStr,
    decU32_encU32, decStrList_encStrList]

theorem decDenomMetadata_enc (m : DenomMetadata) :
    decDenomMetadata (encDenomMetadata m) = .ok m := by
  simp [decDenomMetadata, encDenomMetadata, keysAllowed, findField, decField,
    decStr, decList, mapDec_map decDenomUnit encDenomUnit decDenomUnit_enc]

theorem encDenomMetadata_isNull (m : DenomMetadata) :
    (encDenomMetadata m).isNull = false := rfl

theorem decOptField_encOpt (m : Option DenomMetadata) :
    decOptField decDenomMetadata (some (encOpt encDenomMetadata m)) = .ok m := by
  cases m with
  | none => rfl
  | some md =>
    simp [encOpt, decOptField, encDenomMetadata_isNull, decDenomMetadata_enc md]

theorem decAddr_str (s : String) : decAddr (.str s) = .ok ⟨s⟩ := rfl

/-- Serializing then deserializing any `TokenFactoryMsg` recovers the
original value. -/
theorem decMsg_encMsg (m : TokenFactoryMsg) : decMsg (encMsg m) = .ok m := by
  cases m <;>
    simp [encMsg, decMsg, decMsgFields, keysAllowed, findField, decField, decStr,
      decOptField_encOpt, decAddr_encAddr, decUint256_encUint256,
      decDenomMetadata_enc]

/-- Serializing then deserializing any `TokenFactoryQuery` recovers the
original value. -/
theorem decQuery_encQuery (q : TokenFactoryQuery) : decQuery (encQuery q) = .ok q := by
  cases q <;>
    simp [encQuery, decQuery, decQueryFields, keysAllowed, findField, decField,
      decStr, decAddr_encAddr]

theorem decFullDenomResponse_enc (r : FullDenomResponse) :
    decFullDenomResponse (encFullDenomResponse r) = .ok r := rfl

theorem decAdminResponse_enc (r : AdminResponse) :
    decAdminResponse (encAdminResponse r) = .ok r := rfl

theorem decMetadataResponse_enc (r : MetadataResponse) :
    decMetadataResponse (encMetadataResponse r) = .ok r := by
  simp [encMetadataResponse, decMetadataResponse, keysAllowed, findField,
    decOptField_encOpt]

theorem decDenomsByCreatorResponse_enc (r : DenomsByCreatorResponse) :
    decDenomsByCreatorResponse (encDenomsByCreatorResponse r) = .ok r := by
  simp [encDenomsByCreatorResponse, decDenomsByCreatorResponse, keysAllowed,
    findField, decField, decStrList_encStrList]

theorem decDenomCreationFee_enc (f : DenomCreationFee) :
    decDenomCreationFee (encDenomCreationFee f) = .ok f := by
  simp [encDenomCreationFee, decDenomCreationFee, keysAllowed, findField,
    decField, decStr, decUint256_encUint256]

theorem decTokenParams_enc (p : TokenParams) :
    decTokenParams (encTokenParams p) = .ok p := by
  simp [encTokenParams, decTokenParams, keysAllowed, findField, decField,
    decList, mapDec_map decDenomCreationFee encDenomCreationFee decDenomCreationFee_enc]

theorem decTokenParamsResponse_enc (r : TokenParamsResponse) :
    decTokenParamsResponse (encTokenParamsResponse r) = .ok r := by
  simp [encTokenParamsResponse, decTokenParamsResponse, keysAllowed, findField,
    decField, decTokenParams_enc]

/-! ## Claims -/

/-- C1: every one of the six message constructor helpers of
`CreateTokenFactoryMsg` returns `Ok` on every input — it never returns an
error — and the returned value wraps exactly the corresponding
`TokenFactoryMsg` variant with fields equal to the supplied arguments,
unmodified, for any target type conversion `into`. -/
theorem claim_C1 {α : Type} (into : TokenFactoryMsg → α)
    (subdenom : String) (metadata : Option DenomMetadata)
    (denom₁ : String) (new_admin_address : Addr)
    (denom₂ : String) (amount₂ : Uint256) (mint_to_address : Addr)
    (denom₃ : String) (amount₃ : Uint256) (burn_from_address : Addr)
    (md : DenomMetadata)
    (denom₄ : String) (from_address to_address : Addr) (amount₄ : Uint256) :
    token_factory_create_denom into subdenom metadata =
      .ok (into (.CreateDenom subdenom metadata)) ∧
    token_factory_change_admin into denom₁ new_admin_address =
      .ok (into (.ChangeAdmin denom₁ new_admin_address)) ∧
    token_factory_mint_tokens into denom₂ amount₂ mint_to_address =
      .ok (into (.MintTokens denom₂ amount₂ mint_to_address)) ∧
    token_factory_burn_tokens into denom₃ amount₃ burn_from_address =
      .ok (into (.BurnTokens denom₃ amount₃ burn_from_address)) ∧
    token_factory_set_metadata into md = .ok (into (.SetMetadata md)) ∧
    token_factory_force_transfer into denom₄ from_address to_address amount₄ =
      .ok (into (.ForceTransfer denom₄ from_address to_address amount₄)) :=
  ⟨rfl, rfl, rfl, rfl, rfl, rfl⟩

/-- C3: for every one of the six `TokenFactoryMsg` variants and every one
of the five `TokenFactoryQuery` variants, and every choice of field
values, serializing and then deserializing recovers a value equal to the
original (round-trip law). -/
theorem claim_C3 :
    (∀ m : TokenFactoryMsg, decMsg (encMsg m) = .ok m) ∧
    (∀ q : TokenFactoryQuery, decQuery (encQuery q) = .ok q) :=
  ⟨decMsg_encMsg, decQuery_encQuery⟩

/-- C4: an `AdminResponse` whose `admin` field is the empty string encodes
with the `admin` key bound to the empty JSON string (not absent, not
`null`) and decodes back to the empty-string value losslessly. -/
theorem claim_C4 :
    encAdminResponse ⟨""⟩ = .obj [("admin", .str "")] ∧
    decAdminResponse (encAdminResponse ⟨""⟩) = .ok ⟨""⟩ :=
  ⟨rfl, rfl⟩

/-- C6: `TokenFactoryQuery::FullDenom` with subdenom `"foo"` and creator
address `"contractAddr1"` serializes to the envelope tagged
`"full_denom"` with the two fields reproduced exactly, and deserializing
that envelope yields the original value. -/
theorem claim_C6 :
    encQuery (.FullDenom "foo" ⟨"contractAddr1"⟩) =
      .obj [("full_denom", .obj [("subdenom", .str "foo"),
                                 ("creator_addr", .str "contractAddr1")])] ∧
    decQuery (encQuery (.FullDenom "foo" ⟨"contractAddr1"⟩)) =
      .ok (.FullDenom "foo" ⟨"contractAddr1"⟩) :=
  ⟨rfl, rfl⟩

/-- C8: decoding the encoding of a `DenomsByCreatorResponse` whose
`denoms` sequence is empty succeeds with the empty list — a successful
result, not a decode failure. -/
theorem claim_C8 :
    decDenomsByCreatorResponse (encDenomsByCreatorResponse ⟨[]⟩) = .ok ⟨[]⟩ :=
  rfl

/-- C10: decoding a `MetadataResponse` from an object that lacks the
`"metadata"` key succeeds with `metadata = none` (the `Option` field
defaults to absent), while decoding an `AdminResponse` from an object that
lacks the `"admin"` key fails, since `admin` is a required string
field. -/
theorem claim_C10 (fields fields' : List (String × Json))
    (hallow : keysAllowed fields ["metadata"] = true)
    (hmiss : findField fields "metadata" = none)
    (hallow' : keysAllowed fields' ["admin"] = true)
    (hmiss' : findField fields' "admin" = none) :
    decMetadataResponse (.obj fields) = .ok ⟨none⟩ ∧
    decAdminResponse (.obj fields') = .error "missing field" := by
  constructor
  · simp [decMetadataResponse, hallow, hmiss, decOptField]
  · simp [decAdminResponse, hallow', hmiss', decField]

/-- C10 witness: the empty object decodes as a `MetadataResponse` with no
metadata and fails to decode as an `AdminResponse`. -/
theorem claim_C10_witness :
    decMetadataResponse (.obj []) = .ok ⟨none⟩ ∧
    decAdminResponse (.obj []) = .error "missing field" :=
  claim_C10 [] [] rfl rfl rfl rfl

/-- C2 counterexample: the claim says unknown additional fields are
ignored when decoding a response type, but `#[cw_serde]` derives
`deny_unknown_fields`: decoding a serialized `FullDenomResponse` that
carries one extra unknown field fails instead of succeeding. -/
theorem claim_C2_counterexample :
    decFullDenomResponse
      (.obj [("denom", .str "factory/c/sub"), ("extra_field", .null)]) =
      .error "unknown field" :=
  rfl

/-- C2 (amended): when decoding any of the five typed response types, an
unknown additional field makes decoding fail (cw_serde's
`deny_unknown_fields`), and a missing required field also makes decoding
fail. -/
theorem claim_C2 (fields : List (String × Json)) :
    (keysAllowed fields ["denom"] = false →
      decFullDenomResponse (.obj fields) = .error "unknown field") ∧
    (keysAllowed fields ["admin"] = false →
      decAdminResponse (.obj fields) = .error "unknown field") ∧
    (keysAllowed fields ["metadata"] = false →
      decMetadataResponse (.obj fields) = .error "unknown field") ∧
    (keysAllowed fields ["denoms"] = false →
      decDenomsByCreatorResponse (.obj fields) = .error "unknown field") ∧
    (keysAllowed fields ["params"] = false →
      decTokenParamsResponse (.obj fields) = .error "unknown field") ∧
    (keysAllowed fields ["denom"] = true → findField fields "denom" = none →
      decFullDenomResponse (.obj fields) = .error "missing field") ∧
    (keysAllowed fields ["admin"] = true → findField fields "admin" = none →
      decAdminResponse (.obj fields) = .error "missing field") ∧
    (keysAllowed fields ["denoms"] = true → findField fields "denoms" = none →
      decDenomsByCreatorResponse (.obj fields) = .error "missing field") ∧
    (keysAllowed fields ["params"] = true → findField fields "params" = none →
      decTokenParamsResponse (.obj fields) = .error "missing field") :=
  ⟨fun h => by simp [decFullDenomResponse, h],
   fun h => by simp [decAdminResponse, h],
   fun h => by simp [decMetadataResponse, h],
   fun h => by simp [decDenomsByCreatorResponse, h],
   fun h => by simp [decTokenParamsResponse, h],
   fun h h' => by simp [decFullDenomResponse, h, h', decField],
   fun h h' => by simp [decAdminResponse, h, h', decField],
   fun h h' => by simp [decDenomsByCreatorResponse, h, h', decField],
   fun h h' => by simp [decTokenParamsResponse, h, h', decField]⟩

/-- C2 witness: an `AdminResponse` object with one extra field fails to
decode, and an object missing the required `denom` field fails to decode
as a `FullDenomResponse`. -/
theorem claim_C2_witness :
    decAdminResponse (.obj [("admin", .str "addr"), ("extra_field", .null)]) =
      .error "unknown field" ∧
    decFullDenomResponse (.obj []) = .error "missing field" :=
  ⟨(claim_C2 [("admin", .str "addr"), ("extra_field", .null)]).2.1 rfl,
   (claim_C2 []).2.2.2.2.2.1 rfl rfl⟩

/-- C5: each of the five query helper methods issues exactly one request
to the underlying querier, that request carries exactly the corresponding
`TokenFactoryQuery` variant with the supplied fields; on transport success
the helper returns the decoded typed response unchanged, and on transport
failure it propagates the querier's single opaque error unchanged, with no
retry, recovery or translation. -/
theorem claim_C5 {T : Type} (intoT : TokenFactoryQuery → T) (qw : QuerierWrapper T)
    (subdenom : String) (creator_addr : Addr) (denom : String) (creator : Addr) :
    ((query_token_factory_full_denom intoT qw subdenom creator_addr).2 =
        [intoT (.FullDenom subdenom creator_addr)] ∧
      (∀ e, qw.rawQuery (intoT (.FullDenom subdenom creator_addr)) = .error e →
        (query_token_factory_full_denom intoT qw subdenom creator_addr).1 = .error e) ∧
      (∀ v, qw.rawQuery (intoT (.FullDenom subdenom creator_addr)) = .ok v →
        (query_token_factory_full_denom intoT qw subdenom creator_addr).1 =
          decFullDenomResponse v)) ∧
    ((query_token_factory_admin intoT qw denom).2 = [intoT (.Admin denom)] ∧
      (∀ e, qw.rawQuery (intoT (.Admin denom)) = .error e →
        (query_token_factory_admin intoT qw denom).1 = .error e) ∧
      (∀ v, qw.rawQuery (intoT (.Admin denom)) = .ok v →
        (query_token_factory_admin intoT qw denom).1 = decAdminResponse v)) ∧
    ((query_token_factory_metadata intoT qw denom).2 = [intoT (.Metadata denom)] ∧
      (∀ e, qw.rawQuery (intoT (.Metadata denom)) = .error e →
        (query_token_factory_metadata intoT qw denom).1 = .error e) ∧
      (∀ v, qw.rawQuery (intoT (.Metadata denom)) = .ok v →
        (query_token_factory_metadata intoT qw denom).1 = decMetadataResponse v)) ∧
    ((query_token_factory_denoms_by_creator intoT qw creator).2 =
        [intoT (.DenomsByCreator creator)] ∧
      (∀ e, qw.rawQuery (intoT (.DenomsByCreator creator)) = .error e →
        (query_token_factory_denoms_by_creator intoT qw creator).1 = .error e) ∧
      (∀ v, qw.rawQuery (intoT (.DenomsByCreator creator)) = .ok v →
        (query_token_factory_denoms_by_creator intoT qw creator).1 =
          decDenomsByCreatorResponse v)) ∧
    ((query_token_factory_params intoT qw).2 = [intoT .Params] ∧
      (∀ e, qw.rawQuery (intoT .Params) = .error e →
        (query_token_factory_params intoT qw).1 = .error e) ∧
      (∀ v, qw.rawQuery (intoT .Params) = .ok v →
        (query_token_factory_params intoT qw).1 = decTokenParamsResponse v)) := by
  refine ⟨⟨rfl, ?_, ?_⟩, ⟨rfl, ?_, ?_⟩, ⟨rfl, ?_, ?_⟩, ⟨rfl, ?_, ?_⟩, ⟨rfl, ?_, ?_⟩⟩ <;>
    intro x h <;>
    simp [query_token_factory_full_denom, query_token_factory_admin,
      query_token_factory_metadata, query_token_factory_denoms_by_creator,
      query_token_factory_params, QuerierWrapper.query, h]

/-- C5 witness: with a transport that fails with one opaque error, the
admin query helper records exactly one request carrying the `Admin`
variant and returns that error unchanged. -/
theorem claim_C5_witness :
    (query_token_factory_admin (fun q => q)
        ⟨fun _ => .error "transport failed"⟩ "udenom").1 =
      .error "transport failed" ∧
    (query_token_factory_admin (fun q => q)
        ⟨fun _ => .error "transport failed"⟩ "udenom").2 =
      [TokenFactoryQuery.Admin "udenom"] := by
  have h := claim_C5 (fun q => q) ⟨fun _ => .error "transport failed"⟩
    "sub" ⟨"creator"⟩ "udenom" ⟨"creator"⟩
  exact ⟨h.2.1.2.1 "transport failed" rfl, h.2.1.1⟩

/-- C7: a `MintTokens` message whose amount is
1000000000000000000000000 (fits in 256 bits, not in 64) serializes and
deserializes back to an equal value with the amount intact; generally the
amount round-trips exactly for every 256-bit unsigned integer, and a
negative decimal literal fails to decode as a `Uint256`. -/
theorem claim_C7 :
    decMsg (encMsg (.MintTokens "factory/contractAddr1/foo"
        ⟨1000000000000000000000000, by norm_num⟩ ⟨"recvAddr1"⟩)) =
      .ok (.MintTokens "factory/contractAddr1/foo"
        ⟨1000000000000000000000000, by norm_num⟩ ⟨"recvAddr1"⟩) ∧
    (∀ u : Uint256, decUint256 (encUint256 u) = .ok u) ∧
    (∀ cs : List Char, decUint256 (.str ⟨'-' :: cs⟩) =
      .error "error parsing Uint256 from string") :=
  ⟨decMsg_encMsg _, decUint256_encUint256, fun _ => rfl⟩

/-- C9: every message constructor helper is a pure, deterministic
function: two calls of the same helper with equal argument tuples return
equal values (the helpers are modelled as pure functions; they touch no
state). -/
theorem claim_C9 {α : Type} (into : TokenFactoryMsg → α) :
    (∀ a b : String × Option DenomMetadata, a = b →
      token_factory_create_denom into a.1 a.2 =
        token_factory_create_denom into b.1 b.2) ∧
    (∀ a b : String × Addr, a = b →
      token_factory_change_admin into a.1 a.2 =
        token_factory_change_admin into b.1 b.2) ∧
    (∀ a b : String × Uint256 × Addr, a = b →
      token_factory_mint_tokens into a.1 a.2.1 a.2.2 =
        token_factory_mint_tokens into b.1 b.2.1 b.2.2) ∧
    (∀ a b : String × Uint256 × Addr, a = b →
      token_factory_burn_tokens into a.1 a.2.1 a.2.2 =
        token_factory_burn_tokens into b.1 b.2.1 b.2.2) ∧
    (∀ a b : DenomMetadata, a = b →
      token_factory_set_metadata into a = token_factory_set_metadata into b) ∧
    (∀ a b : String × Addr × Addr × Uint256, a = b →
      token_factory_force_transfer into a.1 a.2.1 a.2.2.1 a.2.2.2 =
        token_factory_force_transfer into b.1 b.2.1 b.2.2.1 b.2.2.2) := by
  refine ⟨?_, ?_, ?_, ?_, ?_, ?_⟩ <;> (intro a b h; rw [h])

/-- C9 witness: two calls of `token_factory_set_metadata` with the same
concrete metadata return the same value. -/
theorem claim_C9_witness :
    token_factory_set_metadata (fun m => m) ⟨"d", [], "b", "di", "n", "s"⟩ =
      token_factory_set_metadata (fun m => m) ⟨"d", [], "b", "di", "n", "s"⟩ :=
  (claim_C9 (fun m => m)).2.2.2.2.1
    ⟨"d", [], "b", "di", "n", "s"⟩ ⟨"d", [], "b", "di", "n", "s"⟩ rfl

end TokenFactory
